import Mathlib

/-!
Verification development for the city-pulse real-time incident pipeline.

Shallow embedding of:
- `src/streaming/realtime_processor.py` (`RealTimeIncidentProcessor`, `BulkDataLoader`)
- `src/agents/intelligent_agents.py` (`AgentOrchestrator`)
- `src/local_dev/realtime_simulator.py` (`LocalIncidentSimulator.process_incidents`,
  `MockAIAgent._mock_notification_processing`)
- `src/embed/embed_and_load.py` (embedding-input construction)

Modelling conventions:
- A Python dict holding an incident payload may lack any key, so it is a
  structure of `Option` fields.  `d["k"]` (which raises `KeyError` on a
  missing key; the callers catch every exception and nack) becomes a
  monadic bind; `d.get("k", v)` becomes `getD v`; `d.get("k")` stays an
  `Option`.
- Python floats are modelled as rationals.
- Wall-clock values (`datetime.utcnow()`, `firestore.SERVER_TIMESTAMP`,
  the bulk loader's 7-day recency cutoff) are not representable; they are
  omitted from records, and the recency test is an oracle parameter.
- Each blocking remote call of the streaming path carries a Boolean flag
  in a `RemoteProfile`; `false` means that call raises (a transient
  remote failure), which the enclosing `except` turns into a nack.
-/

/-- An incoming incident payload: a JSON object in which any key may be
absent.  The field set is the one read by `_prepare_bigquery_row` plus
the fields read elsewhere in the pipeline. -/
structure RawIncident where
  id : Option String := none
  event_type : Option String := none
  sub_category : Option String := none
  description : Option String := none
  keywords : Option (List String) := none
  language : Option String := none
  latitude : Option ℚ := none
  longitude : Option ℚ := none
  location_name : Option String := none
  area_category : Option String := none
  ward_number : Option Int := none
  pincode : Option String := none
  timestamp : Option String := none
  estimated_duration : Option ℚ := none
  actual_duration : Option ℚ := none
  peak_hours : Option Bool := none
  severity_level : Option String := none
  priority_score : Option ℚ := none
  impact_radius : Option ℚ := none
  source : Option String := none
  verified : Option Bool := none
  reporter_id : Option String := none
  verification_count : Option Int := none
  media_type : Option String := none
  media_url : Option String := none
  event_status : Option String := none
  assigned_department : Option String := none
  resolution_notes : Option String := none
  weather_condition : Option String := none
  traffic_density : Option String := none
  deriving DecidableEq

/-- A row prepared for insertion into the BigQuery tables by
`RealTimeIncidentProcessor._prepare_bigquery_row`.  `embedding` keeps the
raw vector (the source wraps each component as `{"value": float(x)}`). -/
structure BQRow where
  id : String
  event_type : String
  sub_category : String
  description : String
  keywords : List String
  language : String
  latitude : ℚ
  longitude : ℚ
  location_name : String
  area_category : String
  ward_number : Int
  pincode : String
  timestamp : String
  estimated_duration : Option ℚ
  actual_duration : Option ℚ
  peak_hours : Bool
  severity_level : String
  priority_score : ℚ
  impact_radius : ℚ
  source : String
  verified : Bool
  reporter_id : Option String
  verification_count : Int
  media_type : Option String
  media_url : Option String
  event_status : String
  assigned_department : String
  resolution_notes : Option String
  weather_condition : Option String
  traffic_density : Option String
  embedding : List ℚ
  deriving DecidableEq

/-- `RealTimeIncidentProcessor._prepare_bigquery_row` (lines 140-174):
builds the row inserted into both BigQuery tables.  The keys read with
`[...]` are matched together because any one of them missing raises
`KeyError` in the source, modelled as the `none` branch; the `.get`
defaults are applied for the optional keys. -/
def prepare_bigquery_row (incident_data : RawIncident) (embeddings : List ℚ) :
    Option BQRow :=
  match incident_data.id, incident_data.event_type, incident_data.sub_category,
      incident_data.description, incident_data.latitude, incident_data.longitude,
      incident_data.location_name, incident_data.area_category, incident_data.ward_number,
      incident_data.pincode, incident_data.timestamp, incident_data.severity_level,
      incident_data.priority_score, incident_data.source, incident_data.assigned_department with
  | some id, some event_type, some sub_category, some description, some latitude,
      some longitude, some location_name, some area_category, some ward_number,
      some pincode, some timestamp, some severity_level, some priority_score,
      some source, some assigned_department =>
    some (BQRow.mk id event_type sub_category description
      (incident_data.keywords.getD []) (incident_data.language.getD "en")
      latitude longitude location_name area_category ward_number pincode timestamp
      incident_data.estimated_duration incident_data.actual_duration
      (incident_data.peak_hours.getD false) severity_level priority_score
      (incident_data.impact_radius.getD 1) source (incident_data.verified.getD false)
      incident_data.reporter_id (incident_data.verification_count.getD 0)
      incident_data.media_type incident_data.media_url
      (incident_data.event_status.getD "reported") assigned_department
      incident_data.resolution_notes incident_data.weather_condition
      incident_data.traffic_density embeddings)
  | _, _, _, _, _, _, _, _, _, _, _, _, _, _, _ => none

/-- The embedding input built inline in
`RealTimeIncidentProcessor.process_incident_stream` (line 114):
`f"{incident_data['description']} {' '.join(incident_data.get('keywords', []))}"`.
`none` models the `KeyError` on a missing `description`. -/
def streamEmbeddingInput (incident_data : RawIncident) : Option String :=
  incident_data.description.map
    (fun d => d ++ " " ++ String.intercalate " " (incident_data.keywords.getD []))

/-- The embedding input built in `BulkDataLoader._process_batch`
(line 303): `f"{incident['description']} {' '.join(incident.get('keywords', []))}"`. -/
def bulkEmbeddingInput (incident : RawIncident) : Option String :=
  incident.description.map
    (fun d => d ++ " " ++ String.intercalate " " (incident.keywords.getD []))

/-- The embedding input built in `src/embed/embed_and_load.py` (line 17):
`f"{incident['description']} {' '.join(incident['keywords'])}"` — here
`keywords` is read with `[...]`, so it is required. -/
def embedAndLoadEmbeddingInput (incident : RawIncident) : Option String := do
  let d ← incident.description
  let ks ← incident.keywords
  pure (d ++ " " ++ String.intercalate " " ks)

/-- The derived `ui_status` field (`_update_firestore`, line 191):
`"active" if incident_data.get("event_status") in ["reported", "in_progress"] else "resolved"`. -/
def uiStatus (event_status : Option String) : String :=
  if event_status = some "reported" ∨ event_status = some "in_progress" then
    "active"
  else
    "resolved"

/-- The document written to the `incidents` collection by
`_update_firestore` (lines 188-192): the whole incident payload plus the
derived `ui_status` (the `last_updated` server timestamp is wall-clock
and omitted). -/
structure FirestoreDoc where
  data : RawIncident
  ui_status : String
  deriving DecidableEq

/-- `firestore_data` as assembled in `_update_firestore`. -/
def firestore_doc (incident_data : RawIncident) : FirestoreDoc :=
  { data := incident_data, ui_status := uiStatus incident_data.event_status }

/-- The per-area counters kept in the `area_stats` collection
(`_update_firestore`, lines 197-202); `last_incident` is a server
timestamp and omitted. -/
structure AreaStats where
  incident_count : Nat
  priority_sum : ℚ
  deriving DecidableEq

/-- A message published to the notification stream by
`_send_notifications` (lines 232-246); the wall-clock timestamp is
omitted. -/
structure Notification where
  type : String
  incident_id : String
  title : String
  message : String
  priority_score : ℚ
  location : String
  departments : List String
  deriving DecidableEq

/-- An analytics event published by `_publish_analytics_events`
(lines 204-230).  The two events carry different dimension sets;
wall-clock timestamps are omitted.  `incidentCount` has
`metric_value = 1.0`; `priorityScore` carries its metric value. -/
inductive AnalyticsEvent
  | incidentCount (event_type area_category severity_level : String)
  | priorityScore (metric_value : ℚ) (ward_number : Int) (assigned_department : String)
  deriving DecidableEq

/-- The observable state of the external stores and streams: the two
BigQuery tables (append-only load jobs), the Firestore `incidents` and
`area_stats` collections (association lists keyed by document id), and
the messages published so far to the notification and analytics
topics. -/
structure StoreState where
  embeddings_table : List BQRow
  realtime_table : List BQRow
  fs_incidents : List (String × FirestoreDoc)
  area_stats : List (String × AreaStats)
  notifications : List Notification
  analytics : List AnalyticsEvent
  deriving DecidableEq

def emptyStore : StoreState :=
  { embeddings_table := [], realtime_table := [], fs_incidents := []
    area_stats := [], notifications := [], analytics := [] }

/-- Firestore `doc_ref.set(..., merge=True)` keyed by document id:
replace the document if the key exists, else append it. -/
def upsertAssoc {α : Type} (k : String) (v : α) : List (String × α) → List (String × α)
  | [] => [(k, v)]
  | (k', v') :: rest =>
    if k' = k then (k, v) :: rest else (k', v') :: upsertAssoc k v rest

/-- The `area_stats` update of `_update_firestore` (lines 197-202):
`firestore.Increment(1)` on `incident_count` and
`firestore.Increment(priority_score)` on `priority_sum`; on a missing
document the increments create the fields at the increment values. -/
def bumpArea (area : String) (p : ℚ) : List (String × AreaStats) → List (String × AreaStats)
  | [] => [(area, { incident_count := 1, priority_sum := p })]
  | (a, st) :: rest =>
    if a = area then
      (a, { incident_count := st.incident_count + 1, priority_sum := st.priority_sum + p }) :: rest
    else
      (a, st) :: bumpArea area p rest

/-- Key lookup in an association list (reading a Firestore document). -/
def lookupAssoc {α : Type} (k : String) : List (String × α) → Option α
  | [] => none
  | (k', v) :: rest => if k' = k then some v else lookupAssoc k rest

/-- The acknowledgment decision for a delivered message: `ack` confirms
it, `nack` returns it to the bus for redelivery. -/
inductive MsgOutcome
  | ack
  | nack
  deriving DecidableEq

/-- Which blocking remote calls succeed during one handling of a stream
message.  Each flag covers one remote operation performed by
`process_incident_stream`; `false` means the call raises (a transient
remote failure), which the enclosing `except` turns into
`message.nack()`. -/
structure RemoteProfile where
  embedOk : Bool := true
  bqEmbOk : Bool := true
  bqRtOk : Bool := true
  fsDocOk : Bool := true
  fsAreaOk : Bool := true
  analyticsOk : Bool := true
  notifyOk : Bool := true
  deriving DecidableEq

/-- The profile in which every remote call succeeds. -/
def allOk : RemoteProfile := {}

/-- `RealTimeIncidentProcessor._publish_analytics_events` (lines 204-230):
the two events built for the analytics stream.  The keys read with
`[...]` raise `KeyError` when missing (`none`); `priority_score` is read
with `.get(..., 0)`. -/
def publish_analytics_events (incident_data : RawIncident) :
    Option (List AnalyticsEvent) :=
  match incident_data.event_type, incident_data.area_category,
      incident_data.severity_level, incident_data.ward_number,
      incident_data.assigned_department with
  | some event_type, some area_category, some severity_level, some ward_number,
      some assigned_department =>
    some [AnalyticsEvent.incidentCount event_type area_category severity_level,
          AnalyticsEvent.priorityScore (incident_data.priority_score.getD 0)
            ward_number assigned_department]
  | _, _, _, _, _ => none

/-- `RealTimeIncidentProcessor._send_notifications` (lines 232-246): the
notification published for a high-priority incident.  `message` is
`description[:200]`; wall-clock timestamp omitted. -/
def send_notifications (incident_data : RawIncident) : Option Notification :=
  match incident_data.id, incident_data.event_type, incident_data.area_category,
      incident_data.description, incident_data.location_name,
      incident_data.assigned_department with
  | some id, some event_type, some area_category, some description,
      some location_name, some assigned_department =>
    some { type := "high_priority_incident"
           incident_id := id
           title := "High Priority: " ++ event_type ++ " in " ++ area_category
           message := description.take 200
           priority_score := incident_data.priority_score.getD 0
           location := location_name
           departments := [assigned_department] }
  | _, _, _, _, _, _ => none

/-- `RealTimeIncidentProcessor.process_incident_stream` (lines 105-138).
`payload = none` models a message whose body `json.loads` cannot parse.
The whole body runs under one `try`; the first exception (a missing
required key or a failed remote call) jumps to the `except` handler,
which nacks, leaving every store write already performed in place (there
is no rollback).  `message.ack()` runs only after all six steps
succeed.  `_update_firestore` (lines 183-202) and `_insert_to_bigquery`
(lines 176-181) are inlined so that each of their remote writes carries
its own `RemoteProfile` flag. -/
def process_incident_stream (prof : RemoteProfile) (embed : String → List ℚ)
    (payload : Option RawIncident) (s : StoreState) : StoreState × MsgOutcome :=
  match payload with
  | none => (s, MsgOutcome.nack)
  | some incident_data =>
    -- 1. Generate embeddings
    match streamEmbeddingInput incident_data with
    | none => (s, MsgOutcome.nack)
    | some text =>
      if !prof.embedOk then (s, MsgOutcome.nack) else
      -- 2. Prepare data for BigQuery
      match prepare_bigquery_row incident_data (embed text) with
      | none => (s, MsgOutcome.nack)
      | some bq_row =>
        -- 3. Insert into BigQuery (both tables, embeddings table first)
        if !prof.bqEmbOk then (s, MsgOutcome.nack) else
        let s := { s with embeddings_table := s.embeddings_table ++ [bq_row] }
        if !prof.bqRtOk then (s, MsgOutcome.nack) else
        let s := { s with realtime_table := s.realtime_table ++ [bq_row] }
        -- 4. Update Firestore for real-time UI
        match incident_data.id with
        | none => (s, MsgOutcome.nack)
        | some id =>
          if !prof.fsDocOk then (s, MsgOutcome.nack) else
          let s := { s with
            fs_incidents := upsertAssoc id (firestore_doc incident_data) s.fs_incidents }
          match incident_data.area_category with
          | none => (s, MsgOutcome.nack)
          | some area =>
            if !prof.fsAreaOk then (s, MsgOutcome.nack) else
            let s := { s with
              area_stats := bumpArea area (incident_data.priority_score.getD 0) s.area_stats }
            -- 5. Publish analytics events
            match publish_analytics_events incident_data with
            | none => (s, MsgOutcome.nack)
            | some events =>
              if !prof.analyticsOk then (s, MsgOutcome.nack) else
              let s := { s with analytics := s.analytics ++ events }
              -- 6. Send notifications if needed
              if 7 ≤ incident_data.priority_score.getD 0 then
                match send_notifications incident_data with
                | none => (s, MsgOutcome.nack)
                | some n =>
                  if !prof.notifyOk then (s, MsgOutcome.nack) else
                  ({ s with notifications := s.notifications ++ [n] }, MsgOutcome.ack)
              else
                (s, MsgOutcome.ack)

/-- `RealTimeIncidentProcessor._update_firestore` (lines 183-202) as
called by `BulkDataLoader._process_batch`: upsert the incident document
keyed by `incident_data["id"]`, then increment the per-area counters
keyed by `incident_data["area_category"]`.  A missing key raises
`KeyError` (`none`). -/
def update_firestore (incident_data : RawIncident) (s : StoreState) :
    Option StoreState :=
  match incident_data.id, incident_data.area_category with
  | some id, some area =>
    some { s with
      fs_incidents := upsertAssoc id (firestore_doc incident_data) s.fs_incidents
      area_stats := bumpArea area (incident_data.priority_score.getD 0) s.area_stats }
  | _, _ => none

/-- One task published to the `agent-tasks` topic by
`RealTimeIncidentProcessor._trigger_high_priority_agents`
(lines 77-103).  Each variant carries the payload keys of its task dict;
values read with `.get` keep their `Option`. -/
inductive AgentTask
  | notification_blast (incident_id : String) (priority : String)
      (departments : List (Option String)) (radius_km : ℚ)
  | trend_analysis (incident_id : String) (event_type : String)
      (location : Option String)
  | resource_allocation (incident_id : String) (severity : Option String)
      (estimated_duration : Option ℚ)
  deriving DecidableEq

/-- `RealTimeIncidentProcessor._trigger_high_priority_agents`
(lines 77-103): the three tasks published for a high-priority incident.
`incident_data["id"]` and `incident_data["event_type"]` raise `KeyError`
when missing; `departments` is the one-element list
`[incident_data.get("assigned_department")]` and `radius_km` defaults
to 2.0. -/
def trigger_high_priority_agents (incident_data : RawIncident) :
    Option (List AgentTask) :=
  match incident_data.id, incident_data.event_type with
  | some id, some event_type =>
    some [AgentTask.notification_blast id "high"
            [incident_data.assigned_department] (incident_data.impact_radius.getD 2),
          AgentTask.trend_analysis id event_type incident_data.location_name,
          AgentTask.resource_allocation id incident_data.severity_level
            incident_data.estimated_duration]
  | _, _ => none

/-- The agent tasks emitted by `RealTimeIncidentProcessor.publish_incident`
(lines 50-75): `_trigger_high_priority_agents` runs exactly when
`incident_data.get("priority_score", 0) >= 8.0`; otherwise no task is
published. -/
def publish_incident_agent_tasks (incident_data : RawIncident) :
    Option (List AgentTask) :=
  if 8 ≤ incident_data.priority_score.getD 0 then
    trigger_high_priority_agents incident_data
  else
    some []

/-- The payload of a message on the `agent-tasks` subscription as read by
`AgentOrchestrator.process_agent_task`: only `task_data.get("task_type")`
is inspected for routing. -/
structure AgentTaskMsg where
  task_type : Option String
  deriving DecidableEq

/-- The outcome of `agent.process_task(task_data)` as observed by the
orchestrator: either it returns a result dict carrying a `status` string
(every handler returns one, `"success"`, `"completed"` or `"error"`), or
it raises an exception. -/
inductive HandlerOutcome
  | returns (status : String)
  | raises
  deriving DecidableEq

/-- The routing table of `AgentOrchestrator.process_agent_task`
(lines 560-568): the agent chosen for a task type, `none` when no branch
matches. -/
def route_agent (task_type : String) : Option String :=
  if task_type = "notification_blast" ∨ task_type = "department_alert" ∨
      task_type = "citizen_update" then
    some "notification_agent"
  else if task_type = "trend_analysis" ∨ task_type = "hotspot_detection" ∨
      task_type = "pattern_recognition" then
    some "trend_analysis_agent"
  else if task_type = "resource_allocation" ∨ task_type = "capacity_planning" then
    some "resource_allocation_agent"
  else if task_type = "daily_summary" ∨ task_type = "hot_topics" ∨
      task_type = "impact_analysis" then
    some "news_insights_agent"
  else
    none

/-- `AgentOrchestrator.process_agent_task` (lines 553-580).
`payload = none` models a message whose JSON fails to parse (the raised
exception is caught and the message nacked).  When an agent is found its
result is logged and the message is acked whatever the reported `status`
value is; an exception escaping the handler is caught and nacked; a task
type matched by no agent is logged and nacked. -/
def process_agent_task (payload : Option AgentTaskMsg)
    (handler : String → HandlerOutcome) : MsgOutcome :=
  match payload with
  | none => MsgOutcome.nack
  | some task_data =>
    match task_data.task_type.bind route_agent with
    | none => MsgOutcome.nack
    | some agent =>
      match handler agent with
      | HandlerOutcome.raises => MsgOutcome.nack
      | HandlerOutcome.returns _ => MsgOutcome.ack

/-- `LocalIncidentSimulator.process_incidents` (lines 442-464): the names
of the agents to which an incident is dispatched, by priority bucket.
High priority (≥ 8.0) iterates over `self.agents` in insertion order;
medium (≥ 6.0) uses the `selected_agents` list; everything else goes to
the resource-allocation agent only. -/
def selected_agents (priority_score : ℚ) : List String :=
  if 8 ≤ priority_score then
    ["notification_agent", "trend_analysis_agent",
     "resource_allocation_agent", "news_insights_agent"]
  else if 6 ≤ priority_score then
    ["notification_agent", "resource_allocation_agent"]
  else
    ["resource_allocation_agent"]

/-- A row logged into the simulator's `notifications` table by
`MockAIAgent._mock_notification_processing` (wall-clock timestamp
omitted). -/
structure SimNotification where
  notification_type : String
  title : String
  message : String
  departments : List String
  deriving DecidableEq

/-- `MockAIAgent._mock_notification_processing` (lines 188-225): the
notification logged for an incident, if any.  At priority ≥ 8.0 an
`emergency_blast` goes to the assigned department plus
`"Emergency Services"`; at ≥ 7.0 a `department_alert` goes to the
assigned department only; below 7.0 nothing is logged. -/
def mock_notification (priority_score : ℚ)
    (event_type area_category description assigned_department : String) :
    Option SimNotification :=
  if 8 ≤ priority_score then
    some { notification_type := "emergency_blast"
           title := "🚨 EMERGENCY: " ++ event_type ++ " in " ++ area_category
           message := "High priority incident reported: " ++ description.take 100 ++ "..."
           departments := [assigned_department, "Emergency Services"] }
  else if 7 ≤ priority_score then
    some { notification_type := "department_alert"
           title := "⚠️  HIGH PRIORITY: " ++ event_type
           message := "Attention required: " ++ description.take 100 ++ "..."
           departments := [assigned_department] }
  else
    none

/-- The batch windows of `BulkDataLoader.load_historical_data`
(lines 286-293): the slice `incidents[i : i + batch_size]` for each
`i in range(0, len(incidents), batch_size)` — that range has
`⌈len/batch_size⌉` indices.  The source fixes `batch_size = 100`; a step
of zero is not reachable there (Python's `range` rejects it), and this
model returns no batches for it. -/
def toBatches {α : Type} (batch_size : Nat) (incidents : List α) :
    List (List α) :=
  (List.range' 0 ((incidents.length + batch_size - 1) / batch_size) batch_size).map
    (fun i => (incidents.drop i).take batch_size)

/-- `BulkDataLoader.batch_size` as set in `__init__` (line 274). -/
def bulk_batch_size : Nat := 100

/-- The row-building loop of `BulkDataLoader._process_batch`
(lines 299-308): for each incident of the batch, build the embedding
input (`KeyError` on a missing `description`), call the embedding model
and prepare the BigQuery row.  The first exception aborts the whole
batch before anything is inserted. -/
def process_batch_rows (embed : String → List ℚ) (batch : List RawIncident) :
    Option (List BQRow) :=
  batch.mapM (fun incident =>
    (bulkEmbeddingInput incident).bind
      (fun text => prepare_bigquery_row incident (embed text)))

/-- The Firestore loop at the end of `BulkDataLoader._process_batch`
(lines 313-318): `_update_firestore` for each incident in the recent
window (the 7-day wall-clock cutoff is the `recent` oracle).  A
`KeyError` mid-loop aborts the batch, keeping the updates already
applied. -/
def batch_firestore_updates (recent : RawIncident → Bool) :
    List RawIncident → StoreState → StoreState × Bool
  | [], s => (s, true)
  | incident :: rest, s =>
    if recent incident then
      match update_firestore incident s with
      | none => (s, false)
      | some s' => batch_firestore_updates recent rest s'
    else
      batch_firestore_updates recent rest s

/-- `BulkDataLoader._process_batch` (lines 297-318): build every row of
the batch, bulk-insert the rows into both BigQuery tables, then run the
recent-window Firestore updates.  The returned flag is `false` when an
exception escaped the batch (the store keeps whatever had already been
written). -/
def process_batch (embed : String → List ℚ) (recent : RawIncident → Bool)
    (batch : List RawIncident) (s : StoreState) : StoreState × Bool :=
  match process_batch_rows embed batch with
  | none => (s, false)
  | some rows =>
    let s := { s with
      embeddings_table := s.embeddings_table ++ rows
      realtime_table := s.realtime_table ++ rows }
    batch_firestore_updates recent batch s

/-- The batch loop of `BulkDataLoader.load_historical_data`
(lines 286-293): the body has no `try`, so an exception in one batch
propagates out of the loop and aborts the whole load — no later batch
runs, and the closing success log line is never reached (flag
`false`). -/
def load_historical_data_go (embed : String → List ℚ)
    (recent : RawIncident → Bool) :
    List (List RawIncident) → StoreState → StoreState × Bool
  | [], s => (s, true)
  | batch :: rest, s =>
    let r := process_batch embed recent batch s
    if r.2 then load_historical_data_go embed recent rest r.1 else (r.1, false)

/-- `BulkDataLoader.load_historical_data` (lines 276-295): window the
collection into batches of `batch_size = 100` and process them in
order. -/
def load_historical_data (embed : String → List ℚ)
    (recent : RawIncident → Bool) (incidents : List RawIncident)
    (s : StoreState) : StoreState × Bool :=
  load_historical_data_go embed recent (toBatches bulk_batch_size incidents) s

/-- Number of rows with a given incident id in a BigQuery table. -/
def countId (i : String) (t : List BQRow) : Nat :=
  (t.filter (fun row => row.id == i)).length

/-- The `incident_count` counter stored for an area (0 when the area
document does not exist yet). -/
def areaIncidentCount (a : String) (l : List (String × AreaStats)) : Nat :=
  match lookupAssoc a l with
  | some st => st.incident_count
  | none => 0

/-- The `priority_sum` counter stored for an area (0 when the area
document does not exist yet). -/
def areaPrioritySum (a : String) (l : List (String × AreaStats)) : ℚ :=
  match lookupAssoc a l with
  | some st => st.priority_sum
  | none => 0

theorem countId_append (i : String) (t rows : List BQRow) :
    countId i (t ++ rows) = countId i t + countId i rows := by
  simp [countId, List.filter_append]

theorem countId_singleton (i : String) (row : BQRow) (h : row.id = i) :
    countId i [row] = 1 := by
  simp [countId, h]

theorem lookupAssoc_upsert {α : Type} (k : String) (v : α)
    (l : List (String × α)) : lookupAssoc k (upsertAssoc k v l) = some v := by
  induction l with
  | nil => simp [upsertAssoc, lookupAssoc]
  | cons hd tl ih =>
    obtain ⟨k', v'⟩ := hd
    by_cases h : k' = k <;> simp [upsertAssoc, lookupAssoc, h, ih]

theorem areaIncidentCount_bump (a : String) (p : ℚ)
    (l : List (String × AreaStats)) :
    areaIncidentCount a (bumpArea a p l) = areaIncidentCount a l + 1 := by
  induction l with
  | nil => simp [bumpArea, areaIncidentCount, lookupAssoc]
  | cons hd tl ih =>
    obtain ⟨a', st⟩ := hd
    by_cases h : a' = a
    · simp [bumpArea, areaIncidentCount, lookupAssoc, h]
    · simpa [bumpArea, areaIncidentCount, lookupAssoc, h] using ih

theorem areaPrioritySum_bump (a : String) (p : ℚ)
    (l : List (String × AreaStats)) :
    areaPrioritySum a (bumpArea a p l) = areaPrioritySum a l + p := by
  induction l with
  | nil => simp [bumpArea, areaPrioritySum, lookupAssoc]
  | cons hd tl ih =>
    obtain ⟨a', st⟩ := hd
    by_cases h : a' = a
    · simp [bumpArea, areaPrioritySum, lookupAssoc, h]
    · simpa [bumpArea, areaPrioritySum, lookupAssoc, h] using ih

/-- An incident payload on which every key read with `[...]` anywhere in
the pipeline is present; the `.get`-style keys are passed through as
options.  Used to quantify over all well-formed incidents. -/
def mkIncident (i et sc d lname area pc ts sev src dept : String)
    (lat lon p : ℚ) (ward : Int) (ks : Option (List String))
    (lang : Option String) (ed ad ir : Option ℚ) (ph ver : Option Bool)
    (rid mt mu es rn wc td : Option String) (vc : Option Int) : RawIncident :=
  { id := some i, event_type := some et, sub_category := some sc
    description := some d, keywords := ks, language := lang
    latitude := some lat, longitude := some lon, location_name := some lname
    area_category := some area, ward_number := some ward, pincode := some pc
    timestamp := some ts, estimated_duration := ed, actual_duration := ad
    peak_hours := ph, severity_level := some sev, priority_score := some p
    impact_radius := ir, source := some src, verified := ver
    reporter_id := rid, verification_count := vc, media_type := mt
    media_url := mu, event_status := es, assigned_department := some dept
    resolution_notes := rn, weather_condition := wc, traffic_density := td }

/-- A fixed deterministic embedding gateway used for concrete runs. -/
def constEmbed : String → List ℚ := fun _ => [0]

/-- Inversion of `_prepare_bigquery_row`: a successfully prepared row
pins down every required input field and records every applied
default. -/
theorem prepare_bigquery_row_eq_some {r : RawIncident} {emb : List ℚ}
    {row : BQRow} (h : prepare_bigquery_row r emb = some row) :
    r.id = some row.id ∧ r.event_type = some row.event_type ∧
    r.sub_category = some row.sub_category ∧
    r.description = some row.description ∧
    r.latitude = some row.latitude ∧ r.longitude = some row.longitude ∧
    r.location_name = some row.location_name ∧
    r.area_category = some row.area_category ∧
    r.ward_number = some row.ward_number ∧ r.pincode = some row.pincode ∧
    r.timestamp = some row.timestamp ∧
    r.severity_level = some row.severity_level ∧
    r.priority_score = some row.priority_score ∧ r.source = some row.source ∧
    r.assigned_department = some row.assigned_department ∧
    row.keywords = r.keywords.getD [] ∧ row.language = r.language.getD "en" ∧
    row.peak_hours = r.peak_hours.getD false ∧
    row.impact_radius = r.impact_radius.getD 1 ∧
    row.verified = r.verified.getD false ∧
    row.verification_count = r.verification_count.getD 0 ∧
    row.event_status = r.event_status.getD "reported" ∧
    row.estimated_duration = r.estimated_duration ∧
    row.actual_duration = r.actual_duration ∧
    row.reporter_id = r.reporter_id ∧ row.media_type = r.media_type ∧
    row.media_url = r.media_url ∧ row.resolution_notes = r.resolution_notes ∧
    row.weather_condition = r.weather_condition ∧
    row.traffic_density = r.traffic_density ∧ row.embedding = emb := by
  unfold prepare_bigquery_row at h
  split at h
  · injection h with h
    subst h
    simp_all
  · exact absurd h (by simp)

/-- A concrete incident whose `event_status` is the terminal value
`"resolved"`, with priority 5. -/
def incTerminal : RawIncident :=
  mkIncident "T1" "flood" "waterlogging" "road flooded" "Koramangala" "urban"
    "560034" "2024-01-01T00:00:00" "high" "citizen" "BBMP"
    12 77 5 150 (some ["flood"]) none none none none none none
    none none none (some "resolved") none none none none

/-- A concrete well-formed incident with priority 5 and no optional
fields. -/
def incGood : RawIncident :=
  mkIncident "G1" "pothole" "road_damage" "large pothole" "Indiranagar" "urban"
    "560038" "2024-01-02T00:00:00" "medium" "citizen" "BBMP"
    12 77 5 86 none none none none none none none
    none none none none none none none none

/-- The all-absent payload `{}`: every key, including `description`, is
missing. -/
def incEmpty : RawIncident := {}

/-- C8.  For every incident, the text submitted to the embedding gateway
is the description concatenated (space-separated) with the keyword
strings joined by spaces, and the live pipeline
(`process_incident_stream`, line 114) and the bulk loader
(`_process_batch`, line 303) build it identically; the standalone
`embed_and_load.py` script builds the same text. -/
theorem C8_embedding_input (r : RawIncident) :
    streamEmbeddingInput r = bulkEmbeddingInput r ∧
    ∀ d ks, r.description = some d → r.keywords = some ks →
      streamEmbeddingInput r = some (d ++ " " ++ String.intercalate " " ks) ∧
      embedAndLoadEmbeddingInput r = some (d ++ " " ++ String.intercalate " " ks) := by
  refine ⟨rfl, ?_⟩
  intro d ks hd hk
  constructor <;>
    simp [streamEmbeddingInput, embedAndLoadEmbeddingInput, hd, hk]

/-- Witness for C8 at a concrete incident. -/
theorem C8_embedding_input_witness :
    incTerminal.description = some "road flooded" ∧
    incTerminal.keywords = some ["flood"] ∧
    streamEmbeddingInput incTerminal = bulkEmbeddingInput incTerminal ∧
    streamEmbeddingInput incTerminal =
      some ("road flooded" ++ " " ++ String.intercalate " " ["flood"]) ∧
    embedAndLoadEmbeddingInput incTerminal =
      some ("road flooded" ++ " " ++ String.intercalate " " ["flood"]) :=
  ⟨rfl, rfl, (C8_embedding_input incTerminal).1,
   ((C8_embedding_input incTerminal).2 "road flooded" ["flood"] rfl rfl).1,
   ((C8_embedding_input incTerminal).2 "road flooded" ["flood"] rfl rfl).2⟩

/-- C9.  Missing optional input fields are replaced by fixed defaults in
the prepared record (`keywords → []`, `language → "en"`,
`event_status → "reported"`, `impact_radius → 1.0`,
`peak_hours → false`, `verified → false`, `verification_count → 0`), and
an incident missing a required field (`description`, `latitude` or
`assigned_department`) produces no record at all. -/
theorem C9_defaults (r : RawIncident) (emb : List ℚ) :
    (∀ row, prepare_bigquery_row r emb = some row →
      (r.keywords = none → row.keywords = []) ∧
      (r.language = none → row.language = "en") ∧
      (r.event_status = none → row.event_status = "reported") ∧
      (r.impact_radius = none → row.impact_radius = 1) ∧
      (r.peak_hours = none → row.peak_hours = false) ∧
      (r.verified = none → row.verified = false) ∧
      (r.verification_count = none → row.verification_count = 0)) ∧
    (r.description = none → prepare_bigquery_row r emb = none) ∧
    (r.latitude = none → prepare_bigquery_row r emb = none) ∧
    (r.assigned_department = none → prepare_bigquery_row r emb = none) := by
  refine ⟨?_, ?_, ?_, ?_⟩
  · intro row h
    obtain ⟨-, -, -, -, -, -, -, -, -, -, -, -, -, -, -,
        hks, hlang, hph, hir, hver, hvc, hes, -⟩ :=
      prepare_bigquery_row_eq_some h
    refine ⟨?_, ?_, ?_, ?_, ?_, ?_, ?_⟩ <;> intro hnone <;>
      simp_all
  · intro hnone
    cases hpr : prepare_bigquery_row r emb with
    | none => rfl
    | some row =>
      have hd := (prepare_bigquery_row_eq_some hpr).2.2.2.1
      rw [hnone] at hd
      exact Option.noConfusion hd
  · intro hnone
    cases hpr : prepare_bigquery_row r emb with
    | none => rfl
    | some row =>
      have hd := (prepare_bigquery_row_eq_some hpr).2.2.2.2.1
      rw [hnone] at hd
      exact Option.noConfusion hd
  · intro hnone
    cases hpr : prepare_bigquery_row r emb with
    | none => rfl
    | some row =>
      have hd :=
        (prepare_bigquery_row_eq_some hpr).2.2.2.2.2.2.2.2.2.2.2.2.2.2.1
      rw [hnone] at hd
      exact Option.noConfusion hd

/-- The row `_prepare_bigquery_row` produces for `incGood` with an empty
embedding vector: every default is applied. -/
def rowGood : BQRow :=
  BQRow.mk "G1" "pothole" "road_damage" "large pothole" [] "en" 12 77
    "Indiranagar" "urban" 86 "560038" "2024-01-02T00:00:00" none none false
    "medium" 5 1 "citizen" false none 0 none none "reported" "BBMP"
    none none none []

/-- Witness for C9 at concrete inputs: the defaults on `incGood` and the
rejection of the all-absent payload. -/
theorem C9_defaults_witness :
    rowGood.keywords = [] ∧ rowGood.language = "en" ∧
    rowGood.event_status = "reported" ∧ rowGood.impact_radius = 1 ∧
    rowGood.peak_hours = false ∧ rowGood.verified = false ∧
    rowGood.verification_count = 0 ∧
    prepare_bigquery_row incEmpty [] = none := by
  have hg := (C9_defaults incGood []).1 rowGood rfl
  have he := (C9_defaults incEmpty []).2.1 rfl
  exact ⟨hg.1 rfl, hg.2.1 rfl, hg.2.2.1 rfl, hg.2.2.2.1 rfl,
    hg.2.2.2.2.1 rfl, hg.2.2.2.2.2.1 rfl, hg.2.2.2.2.2.2 rfl, he⟩

/-- C10.  The `ui_status` stored on the live Firestore document is
`"active"` exactly when the incident's `event_status` is `"reported"` or
`"in_progress"`, and `"resolved"` for every other value (including
`"verified"`, `"false_alarm"` and a missing status). -/
theorem C10_ui_status (r : RawIncident) :
    ((firestore_doc r).ui_status = "active" ↔
      (r.event_status = some "reported" ∨ r.event_status = some "in_progress")) ∧
    ((firestore_doc r).ui_status = "resolved" ↔
      ¬(r.event_status = some "reported" ∨ r.event_status = some "in_progress")) := by
  by_cases h : r.event_status = some "reported" ∨ r.event_status = some "in_progress" <;>
    simp [firestore_doc, uiStatus, h]

/-- C3, counterexample.  A malformed payload (one `json.loads` cannot
parse) is nacked — and will therefore be redelivered — not acknowledged
and dropped as the claim states: the `json.loads` call sits inside the
same `try` as everything else, and the `except` handler calls
`message.nack()`. -/
theorem C3_counterexample :
    process_incident_stream allOk constEmbed none emptyStore =
      (emptyStore, MsgOutcome.nack) := rfl

/-- C3, amended.  A message whose payload fails to parse is nacked and
redelivered (until the bus's external dead-letter policy intervenes);
no store state changes.  It is not treated as a permanent
acknowledge-and-drop failure. -/
theorem C3_amended (prof : RemoteProfile) (embed : String → List ℚ)
    (s : StoreState) :
    process_incident_stream prof embed none s = (s, MsgOutcome.nack) := rfl

/-- C5, counterexample.  A task of a registered kind whose handler
reports failure (returns `{"status": "error", ...}`) is acked, not
nacked: `process_agent_task` logs `result['status']` and calls
`message.ack()` without inspecting the status. -/
theorem C5_counterexample :
    process_agent_task (some { task_type := some "notification_blast" })
      (fun _ => HandlerOutcome.returns "error") = MsgOutcome.ack := rfl

/-- C5, amended.  The dispatcher acks whenever the routed handler
returns a result dict — whatever success/failure status it reports; it
nacks only when the handler raises an exception, when no registered
handler matches the task kind (that part of the claim holds: unknown
kinds are logged and nacked, never silently dropped or acked), or when
the payload fails to parse. -/
theorem C5_amended (payload : Option AgentTaskMsg)
    (handler : String → HandlerOutcome) :
    (payload = none → process_agent_task payload handler = MsgOutcome.nack) ∧
    (∀ task_data, payload = some task_data →
      task_data.task_type.bind route_agent = none →
      process_agent_task payload handler = MsgOutcome.nack) ∧
    (∀ task_data agent status, payload = some task_data →
      task_data.task_type.bind route_agent = some agent →
      handler agent = HandlerOutcome.returns status →
      process_agent_task payload handler = MsgOutcome.ack) ∧
    (∀ task_data agent, payload = some task_data →
      task_data.task_type.bind route_agent = some agent →
      handler agent = HandlerOutcome.raises →
      process_agent_task payload handler = MsgOutcome.nack) := by
  refine ⟨?_, ?_, ?_, ?_⟩
  · intro h
    subst h
    rfl
  · intro task_data h hr
    subst h
    simp [process_agent_task, hr]
  · intro task_data agent status h hr hh
    subst h
    simp [process_agent_task, hr, hh]
  · intro task_data agent h hr hh
    subst h
    simp [process_agent_task, hr, hh]

/-- Witness for C5 at concrete inputs: a routed handler that returns a
success status is acked; an unknown kind is nacked. -/
theorem C5_amended_witness :
    process_agent_task (some { task_type := some "trend_analysis" })
      (fun _ => HandlerOutcome.returns "success") = MsgOutcome.ack ∧
    process_agent_task (some { task_type := some "bogus_kind" })
      (fun _ => HandlerOutcome.returns "success") = MsgOutcome.nack :=
  ⟨(C5_amended (some { task_type := some "trend_analysis" })
      (fun _ => HandlerOutcome.returns "success")).2.2.1
      { task_type := some "trend_analysis" } "trend_analysis_agent" "success"
      rfl (by decide) rfl,
   (C5_amended (some { task_type := some "bogus_kind" })
      (fun _ => HandlerOutcome.returns "success")).2.1
      { task_type := some "bogus_kind" } rfl (by decide)⟩

/-- The spec's concrete medium-bucket scenario: an incident with
priority 6.5. -/
def incMedium : RawIncident :=
  mkIncident "X2" "pothole" "road_damage" "large pothole" "Indiranagar" "urban"
    "560038" "2024-01-03T00:00:00" "medium" "citizen" "BBMP"
    12 77 6.5 86 none none none none none none none
    none none none none none none none none

/-- C2, counterexample.  At priority 6.5 the simulator dispatches the
notification and resource-allocation agents, but the notification agent
logs no notification at all — its department-alert branch requires
priority ≥ 7.0, not ≥ 6.0 — so no department-alert task/notification is
emitted, contrary to the claim; the cloud pipeline likewise publishes no
notification at 6.5 (its threshold is 7.0) yet acks. -/
theorem C2_counterexample :
    selected_agents 6.5 = ["notification_agent", "resource_allocation_agent"] ∧
    mock_notification 6.5 "pothole" "urban" "large pothole" "BBMP" = none ∧
    (process_incident_stream allOk constEmbed (some incMedium) emptyStore).1.notifications = [] ∧
    (process_incident_stream allOk constEmbed (some incMedium) emptyStore).2 = MsgOutcome.ack := by
  refine ⟨by norm_num [selected_agents], by norm_num [mock_notification], ?_, ?_⟩ <;>
    norm_num [incMedium, mkIncident, process_incident_stream, allOk, constEmbed,
      streamEmbeddingInput, prepare_bigquery_row, publish_analytics_events,
      send_notifications, firestore_doc, uiStatus, upsertAssoc, bumpArea,
      lookupAssoc, emptyStore]

/-- C2, amended.  For 6.0 ≤ priority < 8.0 the simulator dispatches
exactly the notification and resource-allocation agents (no
trend-analysis agent); within that bucket the notification agent sends a
department-alert addressed to the assigned department only when
priority ≥ 7.0, and sends nothing for 6.0 ≤ priority < 7.0. -/
theorem C2_amended (p : ℚ) (h6 : 6 ≤ p) (h8 : p < 8) :
    selected_agents p = ["notification_agent", "resource_allocation_agent"] ∧
    (∀ et area d dept, 7 ≤ p →
      mock_notification p et area d dept =
        some { notification_type := "department_alert"
               title := "⚠️  HIGH PRIORITY: " ++ et
               message := "Attention required: " ++ d.take 100 ++ "..."
               departments := [dept] }) ∧
    (∀ et area d dept, p < 7 → mock_notification p et area d dept = none) := by
  have h8' : ¬8 ≤ p := not_le.mpr h8
  refine ⟨by simp [selected_agents, h8', h6], ?_, ?_⟩
  · intro et area d dept h7
    simp [mock_notification, h8', h7]
  · intro et area d dept h7
    simp [mock_notification, h8', not_le.mpr h7]

/-- Witness for C2 at concrete priorities 6.5 and 7.5. -/
theorem C2_amended_witness :
    selected_agents 6.5 = ["notification_agent", "resource_allocation_agent"] ∧
    mock_notification 6.5 "pothole" "urban" "d" "BBMP" = none ∧
    selected_agents 7.5 = ["notification_agent", "resource_allocation_agent"] ∧
    mock_notification 7.5 "pothole" "urban" "d" "BBMP" =
      some { notification_type := "department_alert"
             title := "⚠️  HIGH PRIORITY: " ++ "pothole"
             message := "Attention required: " ++ "d".take 100 ++ "..."
             departments := ["BBMP"] } :=
  ⟨(C2_amended 6.5 (by norm_num) (by norm_num)).1,
   (C2_amended 6.5 (by norm_num) (by norm_num)).2.2 "pothole" "urban" "d" "BBMP"
     (by norm_num),
   (C2_amended 7.5 (by norm_num) (by norm_num)).1,
   (C2_amended 7.5 (by norm_num) (by norm_num)).2.1 "pothole" "urban" "d" "BBMP"
     (by norm_num)⟩

/-- The spec's concrete high-bucket scenario: priority 8.5, assigned to
the fire department. -/
def incHigh : RawIncident :=
  mkIncident "X1" "fire" "building_fire" "major fire" "Koramangala" "urban"
    "560034" "2024-01-04T00:00:00" "critical" "citizen" "Fire Department"
    12 77 8.5 150 none none none none none none none
    none none none none none none none none

/-- C7, counterexample.  At priority 8.5 the publish path emits exactly
three tasks, but the notification task's recipient list is
`[assigned_department]` only — the fixed "Emergency Services" recipient
claimed by the spec is not in the published task (it is added later,
inside the simulator's notification handler). -/
theorem C7_counterexample :
    publish_incident_agent_tasks incHigh =
      some [AgentTask.notification_blast "X1" "high" [some "Fire Department"] 2,
            AgentTask.trend_analysis "X1" "fire" (some "Koramangala"),
            AgentTask.resource_allocation "X1" (some "critical") none] ∧
    some "Emergency Services" ∉ [some "Fire Department"] := by
  refine ⟨?_, by decide⟩
  norm_num [publish_incident_agent_tasks, trigger_high_priority_agents,
    incHigh, mkIncident]

/-- C7, amended.  For every well-formed incident with priority ≥ 8.0
(boundary inclusive), the publish path emits exactly three fan-out
tasks — one `notification_blast` whose recipients are the assigned
department only (`[incident.get("assigned_department")]`, radius
defaulting to 2.0), one `trend_analysis` task and one
`resource_allocation` task; below 8.0 it emits none.  The fixed
"Emergency Services" recipient appears only downstream, in the
simulator's notification handler. -/
theorem C7_amended (i et sc d lname area pc ts sev src dept : String)
    (lat lon p : ℚ) (ward : Int) (ks : Option (List String))
    (lang : Option String) (ed ad ir : Option ℚ) (ph ver : Option Bool)
    (rid mt mu es rn wc td : Option String) (vc : Option Int) :
    (8 ≤ p →
      publish_incident_agent_tasks
        (mkIncident i et sc d lname area pc ts sev src dept lat lon p ward
          ks lang ed ad ir ph ver rid mt mu es rn wc td vc) =
      some [AgentTask.notification_blast i "high" [some dept] (ir.getD 2),
            AgentTask.trend_analysis i et (some lname),
            AgentTask.resource_allocation i (some sev) ed]) ∧
    (p < 8 →
      publish_incident_agent_tasks
        (mkIncident i et sc d lname area pc ts sev src dept lat lon p ward
          ks lang ed ad ir ph ver rid mt mu es rn wc td vc) = some []) := by
  constructor
  · intro h
    simp [publish_incident_agent_tasks, trigger_high_priority_agents,
      mkIncident, h]
  · intro h
    simp [publish_incident_agent_tasks, mkIncident, not_le.mpr h]

/-- Witness for C7 at the boundary priority 8.0 exactly (the inclusive
boundary routes to the high bucket) and just below it. -/
theorem C7_amended_witness :
    publish_incident_agent_tasks
      (mkIncident "X1" "fire" "building_fire" "major fire" "Koramangala"
        "urban" "560034" "2024-01-04T00:00:00" "critical" "citizen"
        "Fire Department" 12 77 8 150 none none none none none none none
        none none none none none none none none) =
      some [AgentTask.notification_blast "X1" "high" [some "Fire Department"] 2,
            AgentTask.trend_analysis "X1" "fire" (some "Koramangala"),
            AgentTask.resource_allocation "X1" (some "critical") none] ∧
    publish_incident_agent_tasks
      (mkIncident "X1" "fire" "building_fire" "major fire" "Koramangala"
        "urban" "560034" "2024-01-04T00:00:00" "critical" "citizen"
        "Fire Department" 12 77 7.9 150 none none none none none none none
        none none none none none none none none) = some [] :=
  ⟨(C7_amended "X1" "fire" "building_fire" "major fire" "Koramangala"
      "urban" "560034" "2024-01-04T00:00:00" "critical" "citizen"
      "Fire Department" 12 77 8 150 none none none none none none none
      none none none none none none none none).1 (by norm_num),
   (C7_amended "X1" "fire" "building_fire" "major fire" "Koramangala"
      "urban" "560034" "2024-01-04T00:00:00" "critical" "citizen"
      "Fire Department" 12 77 7.9 150 none none none none none none none
      none none none none none none none none).2 (by norm_num)⟩

/-- The store and outcome after one delivery of `incTerminal` to an
empty store, with every remote call succeeding. -/
def incTerminalOnce : StoreState × MsgOutcome :=
  process_incident_stream allOk constEmbed (some incTerminal) emptyStore

/-- The store and outcome after the same message is delivered and
processed a second time (simulated redelivery). -/
def incTerminalTwice : StoreState × MsgOutcome :=
  process_incident_stream allOk constEmbed (some incTerminal) incTerminalOnce.1

/-- C1, counterexample.  `incTerminal` carries the terminal status
`"resolved"`, and after the first processing it already sits in the
store — yet the second delivery is processed in full and acknowledged:
the archive and rolling tables then hold two records for id `"T1"` and
the per-area `incident_count` has been incremented twice.  There is no
idempotence/terminal-status check anywhere in
`process_incident_stream`. -/
theorem C1_counterexample :
    incTerminalOnce.2 = MsgOutcome.ack ∧
    incTerminalTwice.2 = MsgOutcome.ack ∧
    countId "T1" incTerminalTwice.1.embeddings_table = 2 ∧
    countId "T1" incTerminalTwice.1.realtime_table = 2 ∧
    areaIncidentCount "urban" incTerminalTwice.1.area_stats = 2 := by
  decide

/-- C1, amended.  For every well-formed incident — terminal status or
not — delivering and processing the same message twice with all remote
calls succeeding acknowledges both deliveries, appends the record twice
to both the archive (embeddings) and rolling (real-time) tables, and
increments the per-area `incident_count` and `priority_sum` twice; only
the live document, an upsert keyed by the incident id, is stored once.
There is no duplicate-delivery or terminal-status short-circuit: the
second delivery re-enriches and re-fans-out. -/
theorem C1_amended (embed : String → List ℚ) (s : StoreState)
    (i et sc d lname area pc ts sev src dept : String)
    (lat lon p : ℚ) (ward : Int) (ks : Option (List String))
    (lang : Option String) (ed ad ir : Option ℚ) (ph ver : Option Bool)
    (rid mt mu es rn wc td : Option String) (vc : Option Int) :
    (process_incident_stream allOk embed
      (some (mkIncident i et sc d lname area pc ts sev src dept lat lon p ward
        ks lang ed ad ir ph ver rid mt mu es rn wc td vc)) s).2 = MsgOutcome.ack ∧
    (process_incident_stream allOk embed
      (some (mkIncident i et sc d lname area pc ts sev src dept lat lon p ward
        ks lang ed ad ir ph ver rid mt mu es rn wc td vc))
      (process_incident_stream allOk embed
        (some (mkIncident i et sc d lname area pc ts sev src dept lat lon p ward
          ks lang ed ad ir ph ver rid mt mu es rn wc td vc)) s).1).2 = MsgOutcome.ack ∧
    countId i (process_incident_stream allOk embed
      (some (mkIncident i et sc d lname area pc ts sev src dept lat lon p ward
        ks lang ed ad ir ph ver rid mt mu es rn wc td vc))
      (process_incident_stream allOk embed
        (some (mkIncident i et sc d lname area pc ts sev src dept lat lon p ward
          ks lang ed ad ir ph ver rid mt mu es rn wc td vc)) s).1).1.embeddings_table
      = countId i s.embeddings_table + 2 ∧
    countId i (process_incident_stream allOk embed
      (some (mkIncident i et sc d lname area pc ts sev src dept lat lon p ward
        ks lang ed ad ir ph ver rid mt mu es rn wc td vc))
      (process_incident_stream allOk embed
        (some (mkIncident i et sc d lname area pc ts sev src dept lat lon p ward
          ks lang ed ad ir ph ver rid mt mu es rn wc td vc)) s).1).1.realtime_table
      = countId i s.realtime_table + 2 ∧
    areaIncidentCount area (process_incident_stream allOk embed
      (some (mkIncident i et sc d lname area pc ts sev src dept lat lon p ward
        ks lang ed ad ir ph ver rid mt mu es rn wc td vc))
      (process_incident_stream allOk embed
        (some (mkIncident i et sc d lname area pc ts sev src dept lat lon p ward
          ks lang ed ad ir ph ver rid mt mu es rn wc td vc)) s).1).1.area_stats
      = areaIncidentCount area s.area_stats + 2 ∧
    areaPrioritySum area (process_incident_stream allOk embed
      (some (mkIncident i et sc d lname area pc ts sev src dept lat lon p ward
        ks lang ed ad ir ph ver rid mt mu es rn wc td vc))
      (process_incident_stream allOk embed
        (some (mkIncident i et sc d lname area pc ts sev src dept lat lon p ward
          ks lang ed ad ir ph ver rid mt mu es rn wc td vc)) s).1).1.area_stats
      = areaPrioritySum area s.area_stats + 2 * p ∧
    lookupAssoc i (process_incident_stream allOk embed
      (some (mkIncident i et sc d lname area pc ts sev src dept lat lon p ward
        ks lang ed ad ir ph ver rid mt mu es rn wc td vc))
      (process_incident_stream allOk embed
        (some (mkIncident i et sc d lname area pc ts sev src dept lat lon p ward
          ks lang ed ad ir ph ver rid mt mu es rn wc td vc)) s).1).1.fs_incidents
      = some (firestore_doc (mkIncident i et sc d lname area pc ts sev src dept
          lat lon p ward ks lang ed ad ir ph ver rid mt mu es rn wc td vc)) := by
  by_cases h7 : (7:ℚ) ≤ p <;>
    refine ⟨?_, ?_, ?_, ?_, ?_, ?_, ?_⟩ <;>
      simp [process_incident_stream, mkIncident, streamEmbeddingInput,
        prepare_bigquery_row, publish_analytics_events, send_notifications,
        allOk, h7, countId_append, countId_singleton, areaIncidentCount_bump,
        areaPrioritySum_bump, lookupAssoc_upsert, countId, firestore_doc,
        uiStatus] <;>
      ring

/-- C4, counterexample.  With enrichment and both BigQuery writes
succeeding (the archive and rolling tables are visibly written), a
failure confined to the live-state counter increment — spec step 5 — is
not swallowed: the message is nacked, contradicting the claim that only
step 3-4 failures trigger redelivery. -/
theorem C4_counterexample :
    (process_incident_stream { fsAreaOk := false } constEmbed (some incGood)
      emptyStore).2 = MsgOutcome.nack ∧
    (process_incident_stream { fsAreaOk := false } constEmbed (some incGood)
      emptyStore).1.embeddings_table ≠ [] ∧
    (process_incident_stream { fsAreaOk := false } constEmbed (some incGood)
      emptyStore).1.realtime_table ≠ [] := by
  decide

/-- C4, amended.  The handler acknowledges only when every step
succeeds: a failure in any of enrichment, the two BigQuery writes, the
live-document upsert, the counter increment, the analytics publishes or
the (priority ≥ 7) notification publish raises into the single `except`
and nacks the message.  Nothing confined to the live-state/fan-out steps
is swallowed. -/
theorem C4_amended (prof : RemoteProfile) (embed : String → List ℚ)
    (s : StoreState) (i et sc d lname area pc ts sev src dept : String)
    (lat lon p : ℚ) (ward : Int) (ks : Option (List String))
    (lang : Option String) (ed ad ir : Option ℚ) (ph ver : Option Bool)
    (rid mt mu es rn wc td : Option String) (vc : Option Int) :
    (process_incident_stream prof embed
      (some (mkIncident i et sc d lname area pc ts sev src dept lat lon p ward
        ks lang ed ad ir ph ver rid mt mu es rn wc td vc)) s).2 = MsgOutcome.ack ↔
      (prof.embedOk = true ∧ prof.bqEmbOk = true ∧ prof.bqRtOk = true ∧
       prof.fsDocOk = true ∧ prof.fsAreaOk = true ∧ prof.analyticsOk = true ∧
       (7 ≤ p → prof.notifyOk = true)) := by
  obtain ⟨e1, e2, e3, e4, e5, e6, e7⟩ := prof
  by_cases h7 : (7:ℚ) ≤ p <;>
    cases e1 <;> cases e2 <;> cases e3 <;> cases e4 <;> cases e5 <;>
      cases e6 <;> cases e7 <;>
      simp [process_incident_stream, mkIncident, streamEmbeddingInput,
        prepare_bigquery_row, publish_analytics_events, send_notifications, h7]

/-- C6, counterexample.  A bulk load of 101 incidents windows into two
batches of the hard-coded size 100.  Batch 1 contains an incident that
fails permanently (`incEmpty` has no `description`, an exception no
retry can fix); batch 2 (`[incGood]`) would succeed on its own.  The
load aborts at batch 1: batch 2 is never processed — `incGood` reaches
neither table — and the loader produces no failed-id summary (the
exception propagates before any summary line). -/
theorem C6_counterexample :
    (process_batch constEmbed (fun _ => true) [incGood] emptyStore).2 = true ∧
    load_historical_data constEmbed (fun _ => true)
      (List.replicate bulk_batch_size incEmpty ++ [incGood]) emptyStore =
      (emptyStore, false) := by
  decide

/-- C6, amended.  If some batch fails permanently the loader aborts
right there: the store keeps only what the earlier batches wrote, no
later batch is processed, and the run never reaches its success summary
(flag `false`); no failed-id report of any kind is produced. -/
theorem C6_amended (embed : String → List ℚ) (recent : RawIncident → Bool)
    (bad : List RawIncident) (rest earlier : List (List RawIncident))
    (s : StoreState)
    (hbad : ∀ s', (process_batch embed recent bad s').2 = false) :
    load_historical_data_go embed recent (bad :: rest) s =
      ((process_batch embed recent bad s).1, false) ∧
    ∀ s', (load_historical_data_go embed recent
      (earlier ++ bad :: rest) s').2 = false := by
  constructor
  · simp [load_historical_data_go, hbad s]
  · induction earlier with
    | nil =>
      intro s'
      simp [load_historical_data_go, hbad s']
    | cons b tl ih =>
      intro s'
      simp only [List.cons_append, load_historical_data_go]
      by_cases hb : (process_batch embed recent b s').2
      · simp only [hb, if_true]
        exact ih _
      · simp [hb]

/-- Witness for C6 at concrete batches: a failing batch after one
successful batch stops the load with the failing batch's state, and the
completion flag is `false`. -/
theorem C6_amended_witness :
    load_historical_data_go constEmbed (fun _ => true)
      ([incEmpty] :: [[incGood]]) emptyStore =
      ((process_batch constEmbed (fun _ => true) [incEmpty] emptyStore).1,
        false) ∧
    (load_historical_data_go constEmbed (fun _ => true)
      ([[incGood]] ++ [incEmpty] :: [[incGood]]) emptyStore).2 = false :=
  ⟨(C6_amended constEmbed (fun _ => true) [incEmpty] [[incGood]] [[incGood]]
      emptyStore (fun _ => rfl)).1,
   (C6_amended constEmbed (fun _ => true) [incEmpty] [[incGood]] [[incGood]]
      emptyStore (fun _ => rfl)).2 emptyStore⟩

/-- Witness for C1 at a concrete incident and the empty store. -/
theorem C1_amended_witness :
    (process_incident_stream allOk constEmbed (some incGood) emptyStore).2 =
      MsgOutcome.ack :=
  (C1_amended constEmbed emptyStore "G1" "pothole" "road_damage"
    "large pothole" "Indiranagar" "urban" "560038" "2024-01-02T00:00:00"
    "medium" "citizen" "BBMP" 12 77 5 86 none none none none none none none
    none none none none none none none none).1

/-- Witness for C4 at a concrete incident: with every remote call
succeeding the ack condition holds outright. -/
theorem C4_amended_witness :
    ((process_incident_stream allOk constEmbed (some incGood) emptyStore).2 =
        MsgOutcome.ack ↔
      (allOk.embedOk = true ∧ allOk.bqEmbOk = true ∧ allOk.bqRtOk = true ∧
       allOk.fsDocOk = true ∧ allOk.fsAreaOk = true ∧
       allOk.analyticsOk = true ∧ (7 ≤ (5:ℚ) → allOk.notifyOk = true))) :=
  C4_amended allOk constEmbed emptyStore "G1" "pothole" "road_damage"
    "large pothole" "Indiranagar" "urban" "560038" "2024-01-02T00:00:00"
    "medium" "citizen" "BBMP" 12 77 5 86 none none none none none none none
    none none none none none none none none
